import Mathlib

/-!
Shallow embedding of the ACDIVE orchestrator core (`src/acdivecore.py`):
the `SystemState` dataclass, the `ACDIVEEngine` constructor with its
degradation path, the logging setup, the persisted-state restore, and the
circuit breaker described by the specification.

Python floats carrying the health score are modelled as rationals (the
claims only compare against 0.0 and 1.0 and clamp, which floats represent
exactly).  Python `datetime.now()` is modelled as an abstract `Nat` instant
supplied as a parameter.  Exceptions are modelled with `Except`/`Option`.
-/

namespace ACDIVE

/-- A raised Python exception, as far as the claims need to distinguish
them: `AttributeError` raised by `getattr`, and any other exception with a
message. -/
inductive PyErr where
  | attributeError (attr : String)
  | exception (msg : String)
deriving Repr, DecidableEq

/-- The `SystemState` dataclass of `acdivecore.py` (lines 23-31):
`timestamp`, `active_domains`, `component_count`, `synapse_health`,
`last_error` (default `None`), `operational_mode` (default `"normal"`). -/
structure SystemState where
  timestamp : Nat
  active_domains : List String
  component_count : Nat
  synapse_health : ℚ
  last_error : Option String := none
  operational_mode : String := "normal"
deriving Repr, DecidableEq

/-- The attribute dictionary of an `ACDIVEEngine` object.  Each field is
`Option`-wrapped because Python attributes come into existence one by one
during `__init__`: `none` means the attribute was never assigned (reading
it would raise `AttributeError`).  The collaborators and the gateway are
opaque to this core, so their values are `Unit`; `firebase_client` can
additionally hold Python `None` (the outer `Option` is "attribute set?",
the inner one is the `None` written by the degradation handler). -/
structure EngineAttrs where
  state : Option SystemState := none
  circuit_state : Option String := none
  failure_count : Option Nat := none
  max_failures : Option Nat := none
  firebase_client : Option (Option Unit) := none
  domain_identifier : Option Unit := none
  component_discovery : Option Unit := none
  integration_weaver : Option Unit := none
  synaptic_modulator : Option Unit := none
  component_registry : Option (List (String × String)) := none
deriving Repr, DecidableEq

/-- The environment a construction runs in: whether a given string names an
attribute of the `logging` module, the outcome of constructing the
`FirebaseClient` and each of the four collaborators, and the outcome of the
gateway read performed by `_load_persisted_state` (`Except.ok none` means
the document is absent or malformed; `Except.ok (some s)` means a
well-formed persisted `SystemState` was found). -/
structure InitEnv where
  loggingAttrs : String → Bool
  firebase : Except PyErr Unit
  domainIdentifier : Except PyErr Unit
  componentDiscovery : Except PyErr Unit
  integrationWeaver : Except PyErr Unit
  synapticModulator : Except PyErr Unit
  getDocument : Except PyErr (Option SystemState)

/-- `ACDIVEEngine._setup_logging` (lines 93-102): `getattr(logging,
log_level)` raises `AttributeError` when `log_level` does not name an
attribute of the `logging` module; otherwise `logging.basicConfig` is
called (a side effect with no further bearing on the claims). -/
def setup_logging (env : InitEnv) (log_level : String) : Except PyErr Unit :=
  if env.loggingAttrs log_level = true then Except.ok ()
  else Except.error (PyErr.attributeError log_level)

/-- The fresh snapshot built at lines 58-63: `timestamp = now`,
`active_domains = []`, `component_count = 0`, `synapse_health = 1.0`, and
the dataclass defaults `last_error = None`, `operational_mode = "normal"`. -/
def initialSystemState (now : Nat) : SystemState :=
  { timestamp := now
    active_domains := []
    component_count := 0
    synapse_health := 1 }

/-- `ACDIVEEngine._handle_initialization_failure` (lines 104-111): set
`self.state.operational_mode = "degraded"`, `self.firebase_client = None`,
`self.component_registry = {}`.  (The in-place nature of the first
assignment is modelled separately at the heap level below; extensionally
the attribute `state` afterwards holds the old snapshot with
`operational_mode` replaced.) -/
def handle_initialization_failure (self : EngineAttrs) : EngineAttrs :=
  { self with
    state := self.state.map (fun s => { s with operational_mode := "degraded" })
    firebase_client := some none
    component_registry := some [] }

/-- `ACDIVEEngine._load_persisted_state` (lines 113 to end of file).  The
source shows `try:` / `if self.firebase_client:` / a `get_document` call on
collection `"system_state"` and is then truncated.  Modelled from the spec
for the missing tail: "If present and well-formed, replace the in-memory
snapshot; if absent or malformed, retain the fresh snapshot"; "A failure at
this step is non-fatal to construction: it is logged and the fresh snapshot
is kept" — so a read failure is absorbed and nothing propagates. -/
def load_persisted_state (env : InitEnv) (client : Option Unit)
    (current : SystemState) : SystemState :=
  match client with
  | none => current
  | some _ =>
    match env.getDocument with
    | Except.error _ => current
    | Except.ok none => current
    | Except.ok (some persisted) => persisted

/-- The first exception raised inside the `try` block of `__init__` by the
gateway or collaborator constructions (lines 72-78), in program order;
`none` when all five constructions succeed. -/
def firstConstructionError (env : InitEnv) : Option PyErr :=
  match env.firebase with
  | Except.error e => some e
  | Except.ok _ =>
    match env.domainIdentifier with
    | Except.error e => some e
    | Except.ok _ =>
      match env.componentDiscovery with
      | Except.error e => some e
      | Except.ok _ =>
        match env.integrationWeaver with
        | Except.error e => some e
        | Except.ok _ =>
          match env.synapticModulator with
          | Except.error e => some e
          | Except.ok _ => none

/-- `ACDIVEEngine.__init__` (lines 40-91).  Returns the attribute
dictionary of the (possibly partially constructed) object together with the
exception the constructor re-raises, if any.  Order follows the source:
`_setup_logging` first (outside the `try`), then the fresh `SystemState`,
then the circuit-breaker fields `circuit_state = "CLOSED"`,
`failure_count = 0`, `max_failures = 5`, then the `try` block constructing
the gateway, the four collaborators, the empty registry, and finally
`_load_persisted_state`; the `except` clause calls
`_handle_initialization_failure` and re-raises. -/
def engineInit (env : InitEnv) (now : Nat) (log_level : String) :
    EngineAttrs × Option PyErr :=
  match setup_logging env log_level with
  | Except.error e => ({}, some e)
  | Except.ok _ =>
    let self0 : EngineAttrs :=
      { state := some (initialSystemState now)
        circuit_state := some "CLOSED"
        failure_count := some 0
        max_failures := some 5 }
    match env.firebase with
    | Except.error e => (handle_initialization_failure self0, some e)
    | Except.ok fc =>
      let self1 := { self0 with firebase_client := some (some fc) }
      match env.domainIdentifier with
      | Except.error e => (handle_initialization_failure self1, some e)
      | Except.ok di =>
        let self2 := { self1 with domain_identifier := some di }
        match env.componentDiscovery with
        | Except.error e => (handle_initialization_failure self2, some e)
        | Except.ok cd =>
          let self3 := { self2 with component_discovery := some cd }
          match env.integrationWeaver with
          | Except.error e => (handle_initialization_failure self3, some e)
          | Except.ok iw =>
            let self4 := { self3 with integration_weaver := some iw }
            match env.synapticModulator with
            | Except.error e => (handle_initialization_failure self4, some e)
            | Except.ok sm =>
              let self5 := { self4 with
                synaptic_modulator := some sm
                component_registry := some [] }
              let loaded := load_persisted_state env (some fc)
                  (initialSystemState now)
              ({ self5 with state := some loaded }, none)

/-- Circuit-breaker states.  The source stores them as the strings
`"CLOSED"`, `"OPEN"`, `"HALF_OPEN"` (acdivecore.py line 66). -/
inductive CBState where
  | CLOSED
  | OPEN
  | HALF_OPEN
deriving Repr, DecidableEq

/-- The circuit-breaker record.  `state`, `failure_count` and
`max_failures` are the fields initialised at acdivecore.py lines 66-68;
`cooldown` is the configured cool-down interval and `opened_at` the instant
of the last transition to OPEN (meaningful while `state = OPEN`), both
required by the spec's OPEN/HALF_OPEN rules but absent from the visible
source fragment. -/
structure CircuitBreaker where
  state : CBState
  failure_count : Nat
  max_failures : Nat
  cooldown : Nat
  opened_at : Nat
deriving Repr, DecidableEq

/-- Result of a call routed through the breaker: the operation's value, the
operation's own error, or a `CircuitOpenError` rejection. -/
inductive CallResult (α : Type) where
  | ok (a : α)
  | opError (msg : String)
  | circuitOpen
deriving Repr, DecidableEq

/-- Modelled from the spec: the HALF_OPEN probe — "Success, transition to
CLOSED, reset `failure_count`.  Failure, transition back to OPEN, restart
the cool-down timer."  The third component records whether the wrapped
dependency was invoked. -/
def probe_call {α : Type} (cb : CircuitBreaker) (now : Nat)
    (op : Except String α) : CircuitBreaker × CallResult α × Bool :=
  match op with
  | Except.ok a =>
    ({ cb with state := CBState.CLOSED, failure_count := 0 },
     CallResult.ok a, true)
  | Except.error msg =>
    ({ cb with state := CBState.OPEN, opened_at := now },
     CallResult.opError msg, true)

/-- Modelled from the spec: `attempt_call(operation)` — the source fragment
only declares the breaker fields (acdivecore.py lines 66-68); the call
logic follows section 4.1 of the spec.  CLOSED: pass the call through, on
failure increment `failure_count` and transition to OPEN when it reaches
`max_failures`, on success reset the count.  OPEN: before the cool-down
elapses reject with `CircuitOpenError` without invoking the dependency;
after it elapses admit the HALF_OPEN probe.  HALF_OPEN: run the probe. -/
def attempt_call {α : Type} (cb : CircuitBreaker) (now : Nat)
    (op : Except String α) : CircuitBreaker × CallResult α × Bool :=
  match cb.state with
  | CBState.OPEN =>
    if now < cb.opened_at + cb.cooldown then
      (cb, CallResult.circuitOpen, false)
    else
      probe_call cb now op
  | CBState.HALF_OPEN => probe_call cb now op
  | CBState.CLOSED =>
    match op with
    | Except.ok a =>
      ({ cb with failure_count := 0 }, CallResult.ok a, true)
    | Except.error msg =>
      if cb.max_failures ≤ cb.failure_count + 1 then
        ({ cb with
            state := CBState.OPEN
            failure_count := cb.failure_count + 1
            opened_at := now },
         CallResult.opError msg, true)
      else
        ({ cb with failure_count := cb.failure_count + 1 },
         CallResult.opError msg, true)

/-- Feed `k` consecutive failing operations (all raising `msg` at instant
`now`) through the breaker. -/
def feedFailures (now : Nat) (msg : String) : Nat → CircuitBreaker → CircuitBreaker
  | 0, cb => cb
  | Nat.succ n, cb =>
    feedFailures now msg n
      (attempt_call cb now (Except.error msg : Except String Unit)).1

/-- A heap of `SystemState` objects.  Python dataclass instances live on
the heap and attributes such as `self.state` are references (indices) into
it; field assignment writes through the reference. -/
structure StateHeap where
  cells : List SystemState
deriving Repr, DecidableEq

/-- Dereference a `SystemState` reference. -/
def StateHeap.read (h : StateHeap) (r : Nat) : Option SystemState :=
  h.cells.get? r

/-- The statement `self.state.operational_mode = "degraded"` of
`_handle_initialization_failure` (acdivecore.py line 107) at the reference
level: it writes the `operational_mode` field of the object `stateRef`
already points to — the reference is unchanged, the cell's contents
change.  (Wholesale replacement would instead allocate a fresh cell and
rebind the attribute, leaving the old cell intact.) -/
def degrade_state_in_place (h : StateHeap) (stateRef : Nat) : StateHeap :=
  match h.read stateRef with
  | none => h
  | some s =>
    { cells := h.cells.set stateRef { s with operational_mode := "degraded" } }

/-- Modelled from the spec: no producer or updater of `synapse_health`
appears in the source fragment (only the field declaration at
acdivecore.py line 29); the spec requires the `[0.0, 1.0]` invariant to be
"enforced by clamping on every write". -/
def update_synapse_health (s : SystemState) (value : ℚ) : SystemState :=
  { s with synapse_health := max 0 (min 1 value) }

/-! Concrete construction environments used by the witnesses. -/

/-- An environment where logging setup, the gateway and all four
collaborators succeed and no persisted state exists. -/
def envAllOk : InitEnv :=
  { loggingAttrs := fun _ => true
    firebase := Except.ok ()
    domainIdentifier := Except.ok ()
    componentDiscovery := Except.ok ()
    integrationWeaver := Except.ok ()
    synapticModulator := Except.ok ()
    getDocument := Except.ok none }

/-- An environment where constructing the `FirebaseClient` raises. -/
def envGatewayFails : InitEnv :=
  { envAllOk with firebase := Except.error (PyErr.exception "connection failed") }

/-- An environment where the gateway read of the persisted state raises. -/
def envReadFails : InitEnv :=
  { envAllOk with getDocument := Except.error (PyErr.exception "read failed") }

/-- An environment whose `logging` module has no attribute at all, so any
`log_level` string fails the `getattr` lookup. -/
def envNoLogAttr : InitEnv :=
  { envAllOk with loggingAttrs := fun _ => false }

/-- When no construction step fails, all five construction outcomes are
`ok`. -/
theorem firstConstructionError_eq_none (env : InitEnv)
    (h : firstConstructionError env = none) :
    env.firebase = Except.ok () ∧ env.domainIdentifier = Except.ok () ∧
    env.componentDiscovery = Except.ok () ∧
    env.integrationWeaver = Except.ok () ∧
    env.synapticModulator = Except.ok () := by
  unfold firstConstructionError at h
  cases h1 : env.firebase with
  | error e => rw [h1] at h; simp at h
  | ok u1 =>
    rw [h1] at h
    cases h2 : env.domainIdentifier with
    | error e => rw [h2] at h; simp at h
    | ok u2 =>
      rw [h2] at h
      cases h3 : env.componentDiscovery with
      | error e => rw [h3] at h; simp at h
      | ok u3 =>
        rw [h3] at h
        cases h4 : env.integrationWeaver with
        | error e => rw [h4] at h; simp at h
        | ok u4 =>
          rw [h4] at h
          cases h5 : env.synapticModulator with
          | error e => rw [h5] at h; simp at h
          | ok u5 => exact ⟨rfl, rfl, rfl, rfl, rfl⟩

/-- Claim C2: every successful construction with no persisted state yields
`operational_mode = "normal"`, `component_count = 0`,
`active_domains = []`, `synapse_health = 1.0`, and a circuit breaker that
starts CLOSED with `failure_count = 0` and `max_failures = 5`. -/
theorem fresh_construction_normal (env : InitEnv) (now : Nat) (lvl : String)
    (hlog : env.loggingAttrs lvl = true)
    (hok : firstConstructionError env = none)
    (hdoc : env.getDocument = Except.ok none) :
    (engineInit env now lvl).2 = none ∧
    (engineInit env now lvl).1.state.map SystemState.operational_mode = some "normal" ∧
    (engineInit env now lvl).1.state.map SystemState.component_count = some 0 ∧
    (engineInit env now lvl).1.state.map SystemState.active_domains = some [] ∧
    (engineInit env now lvl).1.state.map SystemState.synapse_health = some 1 ∧
    (engineInit env now lvl).1.circuit_state = some "CLOSED" ∧
    (engineInit env now lvl).1.failure_count = some 0 ∧
    (engineInit env now lvl).1.max_failures = some 5 := by
  obtain ⟨h1, h2, h3, h4, h5⟩ := firstConstructionError_eq_none env hok
  unfold engineInit setup_logging load_persisted_state
  rw [hlog, h1, h2, h3, h4, h5, hdoc]
  simp [initialSystemState]

/-- Claim C2 witness: constructing in `envAllOk` at instant 7. -/
theorem fresh_construction_normal_witness :
    envAllOk.loggingAttrs "INFO" = true ∧
    firstConstructionError envAllOk = none ∧
    envAllOk.getDocument = Except.ok none ∧
    ((engineInit envAllOk 7 "INFO").2 = none ∧
     (engineInit envAllOk 7 "INFO").1.state.map SystemState.operational_mode = some "normal" ∧
     (engineInit envAllOk 7 "INFO").1.state.map SystemState.component_count = some 0 ∧
     (engineInit envAllOk 7 "INFO").1.state.map SystemState.active_domains = some [] ∧
     (engineInit envAllOk 7 "INFO").1.state.map SystemState.synapse_health = some 1 ∧
     (engineInit envAllOk 7 "INFO").1.circuit_state = some "CLOSED" ∧
     (engineInit envAllOk 7 "INFO").1.failure_count = some 0 ∧
     (engineInit envAllOk 7 "INFO").1.max_failures = some 5) :=
  ⟨rfl, rfl, rfl, fresh_construction_normal envAllOk 7 "INFO" rfl rfl rfl⟩

/-- Claim C7: a failure while loading the persisted state never propagates
out of the constructor and never enters the degradation path — the fresh
snapshot from step 2 is kept and construction succeeds with
`operational_mode = "normal"`. -/
theorem persisted_read_failure_absorbed (env : InitEnv) (now : Nat)
    (lvl : String) (e : PyErr)
    (hlog : env.loggingAttrs lvl = true)
    (hok : firstConstructionError env = none)
    (hdoc : env.getDocument = Except.error e) :
    (engineInit env now lvl).2 = none ∧
    (engineInit env now lvl).1.state = some (initialSystemState now) ∧
    (engineInit env now lvl).1.state.map SystemState.operational_mode = some "normal" ∧
    (engineInit env now lvl).1.firebase_client = some (some ()) := by
  obtain ⟨h1, h2, h3, h4, h5⟩ := firstConstructionError_eq_none env hok
  unfold engineInit setup_logging load_persisted_state
  rw [hlog, h1, h2, h3, h4, h5, hdoc]
  simp [initialSystemState]

/-- Claim C7 witness: constructing in `envReadFails` at instant 3. -/
theorem persisted_read_failure_absorbed_witness :
    envReadFails.loggingAttrs "INFO" = true ∧
    firstConstructionError envReadFails = none ∧
    envReadFails.getDocument = Except.error (PyErr.exception "read failed") ∧
    ((engineInit envReadFails 3 "INFO").2 = none ∧
     (engineInit envReadFails 3 "INFO").1.state = some (initialSystemState 3) ∧
     (engineInit envReadFails 3 "INFO").1.state.map SystemState.operational_mode = some "normal" ∧
     (engineInit envReadFails 3 "INFO").1.firebase_client = some (some ())) :=
  ⟨rfl, rfl, rfl,
   persisted_read_failure_absorbed envReadFails 3 "INFO"
     (PyErr.exception "read failed") rfl rfl rfl⟩

/-- Claim C9: `_handle_initialization_failure` changes only
`operational_mode`, the gateway reference and the registry; the state's
`timestamp`, `active_domains`, `component_count`, `synapse_health` and
`last_error`, and the breaker fields `circuit_state`, `failure_count` and
`max_failures`, are left unchanged. -/
theorem handle_failure_frame (self : EngineAttrs) :
    ((handle_initialization_failure self).state.map SystemState.timestamp =
      self.state.map SystemState.timestamp) ∧
    ((handle_initialization_failure self).state.map SystemState.active_domains =
      self.state.map SystemState.active_domains) ∧
    ((handle_initialization_failure self).state.map SystemState.component_count =
      self.state.map SystemState.component_count) ∧
    ((handle_initialization_failure self).state.map SystemState.synapse_health =
      self.state.map SystemState.synapse_health) ∧
    ((handle_initialization_failure self).state.map SystemState.last_error =
      self.state.map SystemState.last_error) ∧
    (handle_initialization_failure self).circuit_state = self.circuit_state ∧
    (handle_initialization_failure self).failure_count = self.failure_count ∧
    (handle_initialization_failure self).max_failures = self.max_failures := by
  cases h : self.state <;> simp [handle_initialization_failure, h]

/-- Claim C10: a `log_level` that is not an attribute of the `logging`
module makes construction raise `AttributeError` from the logging setup,
before the state snapshot or any circuit-breaker field exists, and the
degradation path is never entered (no attribute is ever set, so no
`operational_mode` can read `"degraded"`). -/
theorem invalid_log_level_raises (env : InitEnv) (now : Nat) (lvl : String)
    (h : env.loggingAttrs lvl = false) :
    (engineInit env now lvl).2 = some (PyErr.attributeError lvl) ∧
    (engineInit env now lvl).1.state = none ∧
    (engineInit env now lvl).1.circuit_state = none ∧
    (engineInit env now lvl).1.failure_count = none ∧
    (engineInit env now lvl).1.max_failures = none ∧
    (engineInit env now lvl).1.firebase_client = none ∧
    (engineInit env now lvl).1.component_registry = none := by
  unfold engineInit setup_logging
  rw [h]
  simp [EngineAttrs.state]

/-- Claim C10 witness: constructing in `envNoLogAttr` with level
`"VERBOSE"`. -/
theorem invalid_log_level_raises_witness :
    envNoLogAttr.loggingAttrs "VERBOSE" = false ∧
    ((engineInit envNoLogAttr 0 "VERBOSE").2 =
       some (PyErr.attributeError "VERBOSE") ∧
     (engineInit envNoLogAttr 0 "VERBOSE").1.state = none ∧
     (engineInit envNoLogAttr 0 "VERBOSE").1.circuit_state = none ∧
     (engineInit envNoLogAttr 0 "VERBOSE").1.failure_count = none ∧
     (engineInit envNoLogAttr 0 "VERBOSE").1.max_failures = none ∧
     (engineInit envNoLogAttr 0 "VERBOSE").1.firebase_client = none ∧
     (engineInit envNoLogAttr 0 "VERBOSE").1.component_registry = none) :=
  ⟨rfl, invalid_log_level_raises envNoLogAttr 0 "VERBOSE" rfl⟩

/-- Claim C8: every write through the synapse-health update leaves the
stored `synapse_health` inside `[0.0, 1.0]`, whatever value was passed. -/
theorem synapse_health_clamped (s : SystemState) (value : ℚ) :
    0 ≤ (update_synapse_health s value).synapse_health ∧
    (update_synapse_health s value).synapse_health ≤ 1 := by
  unfold update_synapse_health
  exact ⟨le_max_left 0 _, max_le (by norm_num) (min_le_left 1 value)⟩

/-- Claim C6 is violated by the code: running the degradation path on a
one-cell heap holding the fresh snapshot changes the contents of the cell
the pre-existing `self.state` reference points to (it now reads
`"degraded"`), and allocates nothing — the snapshot was mutated in place,
not replaced wholesale. -/
theorem degradation_mutates_snapshot_in_place :
    (degrade_state_in_place { cells := [initialSystemState 0] } 0).read 0 ≠
      StateHeap.read { cells := [initialSystemState 0] } 0 ∧
    (degrade_state_in_place { cells := [initialSystemState 0] } 0).read 0 =
      some { initialSystemState 0 with operational_mode := "degraded" } ∧
    (degrade_state_in_place { cells := [initialSystemState 0] } 0).cells.length = 1 :=
  ⟨by decide, rfl, rfl⟩

/-- Claim C1: if the gateway or any of the four collaborator constructions
raises, the constructor re-raises that same error, and the retained object
shows `operational_mode = "degraded"`, a discarded gateway reference
(`None`) and an empty component registry. -/
theorem construction_failure_degrades (env : InitEnv) (now : Nat)
    (lvl : String) (e : PyErr)
    (hlog : env.loggingAttrs lvl = true)
    (hfail : firstConstructionError env = some e) :
    (engineInit env now lvl).2 = some e ∧
    (engineInit env now lvl).1.state.map SystemState.operational_mode = some "degraded" ∧
    (engineInit env now lvl).1.firebase_client = some none ∧
    (engineInit env now lvl).1.component_registry = some [] := by
  unfold firstConstructionError at hfail
  unfold engineInit setup_logging
  rw [hlog]
  cases h1 : env.firebase with
  | error e1 =>
    rw [h1] at hfail
    simp only [Option.some.injEq] at hfail
    subst hfail
    simp [handle_initialization_failure, initialSystemState]
  | ok u1 =>
    rw [h1] at hfail
    cases h2 : env.domainIdentifier with
    | error e2 =>
      rw [h2] at hfail
      simp only [Option.some.injEq] at hfail
      subst hfail
      simp [handle_initialization_failure, initialSystemState]
    | ok u2 =>
      rw [h2] at hfail
      cases h3 : env.componentDiscovery with
      | error e3 =>
        rw [h3] at hfail
        simp only [Option.some.injEq] at hfail
        subst hfail
        simp [handle_initialization_failure, initialSystemState]
      | ok u3 =>
        rw [h3] at hfail
        cases h4 : env.integrationWeaver with
        | error e4 =>
          rw [h4] at hfail
          simp only [Option.some.injEq] at hfail
          subst hfail
          simp [handle_initialization_failure, initialSystemState]
        | ok u4 =>
          rw [h4] at hfail
          cases h5 : env.synapticModulator with
          | error e5 =>
            rw [h5] at hfail
            simp only [Option.some.injEq] at hfail
            subst hfail
            simp [handle_initialization_failure, initialSystemState]
          | ok u5 =>
            rw [h5] at hfail
            simp at hfail

/-- Claim C1 witness: constructing in `envGatewayFails` at instant 0. -/
theorem construction_failure_degrades_witness :
    envGatewayFails.loggingAttrs "INFO" = true ∧
    firstConstructionError envGatewayFails =
      some (PyErr.exception "connection failed") ∧
    ((engineInit envGatewayFails 0 "INFO").2 =
       some (PyErr.exception "connection failed") ∧
     (engineInit envGatewayFails 0 "INFO").1.state.map
       SystemState.operational_mode = some "degraded" ∧
     (engineInit envGatewayFails 0 "INFO").1.firebase_client = some none ∧
     (engineInit envGatewayFails 0 "INFO").1.component_registry = some []) :=
  ⟨rfl, rfl,
   construction_failure_degrades envGatewayFails 0 "INFO"
     (PyErr.exception "connection failed") rfl rfl⟩

/-- Claim C3: while the breaker is OPEN and the cool-down has not elapsed,
`attempt_call` rejects with `CircuitOpenError`, the breaker is unchanged,
and the wrapped dependency is never invoked. -/
theorem open_rejects_without_invoking (cb : CircuitBreaker) (now : Nat)
    (op : Except String Unit)
    (hstate : cb.state = CBState.OPEN)
    (hcool : now < cb.opened_at + cb.cooldown) :
    attempt_call cb now op = (cb, CallResult.circuitOpen, false) := by
  unfold attempt_call
  rw [hstate]
  simp [hcool]

/-- Claim C3 witness: an OPEN breaker probed 5 ticks into a 10-tick
cool-down. -/
theorem open_rejects_without_invoking_witness :
    CircuitBreaker.state ⟨CBState.OPEN, 5, 5, 10, 100⟩ = CBState.OPEN ∧
    (105 : Nat) < CircuitBreaker.opened_at ⟨CBState.OPEN, 5, 5, 10, 100⟩ +
      CircuitBreaker.cooldown ⟨CBState.OPEN, 5, 5, 10, 100⟩ ∧
    attempt_call (⟨CBState.OPEN, 5, 5, 10, 100⟩ : CircuitBreaker) 105
        (Except.error "boom" : Except String Unit) =
      (⟨CBState.OPEN, 5, 5, 10, 100⟩, CallResult.circuitOpen, false) :=
  ⟨rfl, by decide,
   open_rejects_without_invoking ⟨CBState.OPEN, 5, 5, 10, 100⟩ 105
     (Except.error "boom") rfl (by decide)⟩

/-- Claim C5: from HALF_OPEN, a successful probe moves the breaker to
CLOSED with `failure_count = 0`, and a failed probe moves it back to OPEN
with the cool-down timer restarted (`opened_at = now`). -/
theorem half_open_probe (cb : CircuitBreaker) (now : Nat)
    (hstate : cb.state = CBState.HALF_OPEN) :
    ((attempt_call cb now (Except.ok () : Except String Unit)).1.state =
       CBState.CLOSED ∧
     (attempt_call cb now (Except.ok () : Except String Unit)).1.failure_count = 0) ∧
    (∀ msg : String,
      (attempt_call cb now (Except.error msg : Except String Unit)).1.state =
        CBState.OPEN ∧
      (attempt_call cb now (Except.error msg : Except String Unit)).1.opened_at =
        now) := by
  unfold attempt_call probe_call
  rw [hstate]
  simp

/-- Claim C5 witness: a HALF_OPEN breaker probed at instant 200. -/
theorem half_open_probe_witness :
    CircuitBreaker.state ⟨CBState.HALF_OPEN, 5, 5, 10, 100⟩ = CBState.HALF_OPEN ∧
    (attempt_call (⟨CBState.HALF_OPEN, 5, 5, 10, 100⟩ : CircuitBreaker) 200
        (Except.ok () : Except String Unit)).1.state = CBState.CLOSED ∧
    (attempt_call (⟨CBState.HALF_OPEN, 5, 5, 10, 100⟩ : CircuitBreaker) 200
        (Except.error "boom" : Except String Unit)).1.opened_at = 200 :=
  ⟨rfl,
   (half_open_probe ⟨CBState.HALF_OPEN, 5, 5, 10, 100⟩ 200 rfl).1.1,
   ((half_open_probe ⟨CBState.HALF_OPEN, 5, 5, 10, 100⟩ 200 rfl).2 "boom").2⟩

/-- While CLOSED and strictly below the threshold, feeding failures keeps
the breaker CLOSED and adds one to `failure_count` per failure. -/
theorem feedFailures_stays_closed (now : Nat) (msg : String) :
    ∀ (k : Nat) (cb : CircuitBreaker), cb.state = CBState.CLOSED →
      cb.failure_count + k < cb.max_failures →
      (feedFailures now msg k cb).state = CBState.CLOSED ∧
      (feedFailures now msg k cb).failure_count = cb.failure_count + k := by
  intro k
  induction k with
  | zero => intro cb hs _; simp [feedFailures, hs]
  | succ n ih =>
    intro cb hs hlt
    have hno : ¬ cb.max_failures ≤ cb.failure_count + 1 := by omega
    have hstep : (attempt_call cb now (Except.error msg : Except String Unit)).1 =
        { cb with failure_count := cb.failure_count + 1 } := by
      unfold attempt_call
      rw [hs]
      simp [hno]
    simp only [feedFailures, hstep]
    obtain ⟨ha, hb⟩ :=
      ih { cb with failure_count := cb.failure_count + 1 } hs (by simp; omega)
    refine ⟨ha, ?_⟩
    rw [hb]
    simp
    omega

/-- While CLOSED, feeding exactly the number of failures that makes
`failure_count` reach `max_failures` drives the breaker to OPEN. -/
theorem feedFailures_opens (now : Nat) (msg : String) :
    ∀ (k : Nat) (cb : CircuitBreaker), cb.state = CBState.CLOSED →
      cb.failure_count + k = cb.max_failures → 1 ≤ k →
      (feedFailures now msg k cb).state = CBState.OPEN := by
  intro k
  induction k with
  | zero => intro cb _ _ hk; omega
  | succ n ih =>
    intro cb hs heq _
    by_cases hn : n = 0
    · subst hn
      have hyes : cb.max_failures ≤ cb.failure_count + 1 := by omega
      have hstep : (attempt_call cb now (Except.error msg : Except String Unit)).1 =
          { cb with
            state := CBState.OPEN
            failure_count := cb.failure_count + 1
            opened_at := now } := by
        unfold attempt_call
        rw [hs]
        simp [hyes]
      simp only [feedFailures, hstep]
    · have hno : ¬ cb.max_failures ≤ cb.failure_count + 1 := by omega
      have hstep : (attempt_call cb now (Except.error msg : Except String Unit)).1 =
          { cb with failure_count := cb.failure_count + 1 } := by
        unfold attempt_call
        rw [hs]
        simp [hno]
      simp only [feedFailures, hstep]
      exact ih { cb with failure_count := cb.failure_count + 1 } hs
        (by simp; omega) (by omega)

/-- Claim C4: starting CLOSED with `failure_count = 0`, the breaker is
still CLOSED with `failure_count = k` after any `k < max_failures`
consecutive failures, transitions to OPEN exactly at the
`max_failures`-th consecutive failure, and any success while CLOSED resets
`failure_count` to 0 leaving the breaker CLOSED. -/
theorem closed_opens_at_max_failures (cb : CircuitBreaker) (now : Nat)
    (msg : String)
    (hstate : cb.state = CBState.CLOSED)
    (hcount : cb.failure_count = 0)
    (hmax : 0 < cb.max_failures) :
    (∀ k, k < cb.max_failures →
      (feedFailures now msg k cb).state = CBState.CLOSED ∧
      (feedFailures now msg k cb).failure_count = k) ∧
    (feedFailures now msg cb.max_failures cb).state = CBState.OPEN ∧
    (∀ cb2 : CircuitBreaker, cb2.state = CBState.CLOSED →
      (attempt_call cb2 now (Except.ok () : Except String Unit)).1.failure_count = 0 ∧
      (attempt_call cb2 now (Except.ok () : Except String Unit)).1.state =
        CBState.CLOSED) := by
  refine ⟨?_, ?_, ?_⟩
  · intro k hk
    have h := feedFailures_stays_closed now msg k cb hstate (by omega)
    rw [hcount] at h
    simpa using h
  · exact feedFailures_opens now msg cb.max_failures cb hstate (by omega) hmax
  · intro cb2 hs2
    unfold attempt_call
    rw [hs2]
    simp

/-- Claim C4 witness: a fresh breaker with threshold 5 fed five
consecutive failures. -/
theorem closed_opens_at_max_failures_witness :
    CircuitBreaker.state ⟨CBState.CLOSED, 0, 5, 10, 0⟩ = CBState.CLOSED ∧
    CircuitBreaker.failure_count ⟨CBState.CLOSED, 0, 5, 10, 0⟩ = 0 ∧
    0 < CircuitBreaker.max_failures ⟨CBState.CLOSED, 0, 5, 10, 0⟩ ∧
    (feedFailures 0 "boom" 5 (⟨CBState.CLOSED, 0, 5, 10, 0⟩ : CircuitBreaker)).state =
      CBState.OPEN :=
  ⟨rfl, rfl, by decide,
   (closed_opens_at_max_failures ⟨CBState.CLOSED, 0, 5, 10, 0⟩ 0 "boom"
     rfl rfl (by decide)).2.1⟩

end ACDIVE
